import Mathlib

/-
Verification of the az_airdrop ink! contract (src/lib.rs, src/errors.rs).

Shallow embedding conventions:
- All machine integers (AccountId, u128 Balance amounts, u64 Timestamp
  values, the u8 percentage) are modelled as Nat; overflow-checked Rust
  arithmetic is modelled by explicit bound checks returning Option.none for a
  panic/trap (ink! contracts are compiled with overflow checks enabled).
- U256 intermediate products are exact Nat arithmetic: every product formed in
  the source has factors below 2^128 and 2^64, hence below 2^256, so the U256
  multiplication and division never wrap and exact Nat math is faithful.
  The as_u128 conversion panics when the value exceeds u128::MAX; this is
  modelled by an explicit comparison against U128_MAX returning none.
- Rust saturating_sub on unsigned integers coincides with Nat subtraction;
  saturating_add is min against the type maximum.
- ink! storage Mapping is an association list with first-key lookup and
  first-key replacement on insert.
- External collaborators (the PSP22 token service, the block environment) are
  inputs in an Env record: caller, block timestamp, the contract's token
  balance as reported by balance_of, and the success of transfer /
  transfer_from invocations.
- Each message body is translated in source order, threading the intermediate
  state; an error return carries the state as mutated so far. The function
  step wraps a body with the revert-on-error semantics of the ink! message
  dispatcher (per spec section 5, errors abort with no observable state
  change): on an error result the pre-call state is restored.
-/

deriving instance DecidableEq for Except

def U64_MAX : Nat := 2 ^ 64 - 1

def U128_MAX : Nat := 2 ^ 128 - 1

/-- Error type from src/errors.rs. ContractCall and InkEnvError wrap opaque
environment failures; the payload recorded here is a fixed tag because the
wrapped cause is opaque to the contract logic. -/
inductive AzAirdropError where
  | ContractCall : AzAirdropError
  | InkEnvError : String → AzAirdropError
  | NotFound : String → AzAirdropError
  | Unauthorised : AzAirdropError
  | UnprocessableEntity : String → AzAirdropError
deriving DecidableEq

/-- Recipient record from src/lib.rs. -/
structure Recipient where
  total_amount : Nat
  collected : Nat
  collectable_at_tge_percentage : Nat
  cliff_duration : Nat
  vesting_duration : Nat
deriving DecidableEq

/-- Contract storage from src/lib.rs. The Mapping of recipients is an
association list; sub_admins_mapping holds the keys of the sub-admin Mapping
(the source stores the address as its own value). -/
structure AzAirdrop where
  admin : Nat
  sub_admins_mapping : List Nat
  sub_admins_as_vec : List Nat
  token : Nat
  to_be_collected : Nat
  start : Nat
  recipients : List (Nat × Recipient)
  default_collectable_at_tge_percentage : Nat
  default_cliff_duration : Nat
  default_vesting_duration : Nat
deriving DecidableEq

/-- Lookup in the recipients Mapping: first binding for the key. -/
def mapGet : List (Nat × Recipient) → Nat → Option Recipient
  | [], _ => none
  | (k', v') :: t, k => if k' = k then some v' else mapGet t k

/-- Insert in the recipients Mapping: replace the first binding for the key,
or append a fresh binding. -/
def mapInsert : List (Nat × Recipient) → Nat → Recipient →
    List (Nat × Recipient)
  | [], k, v => [(k, v)]
  | (k', v') :: t, k, v =>
    if k' = k then (k, v) :: t else (k', v') :: mapInsert t k v

/-- Environment of one message invocation: caller, block timestamp, the
PSP22 balance_of this contract, and the outcomes of the external transfer
and transfer_from calls. -/
structure Env where
  caller : Nat
  now : Nat
  balance : Nat
  transferOk : Bool
  transferFromOk : Bool
deriving DecidableEq

/-- Private helper validate_airdrop_calculation_variables from src/lib.rs
lines 516-550. The end_timestamp sum is computed in u128 in the source; the
three summands are u64 values so the u128 addition cannot wrap and exact Nat
arithmetic is faithful. -/
def validate_airdrop_calculation_variables (start : Nat)
    (collectable_at_tge_percentage : Nat) (cliff_duration : Nat)
    (vesting_duration : Nat) : Except AzAirdropError Unit :=
  if collectable_at_tge_percentage > 100 then
    .error (.UnprocessableEntity
      "collectable_at_tge_percentage must be less than or equal to 100")
  else if collectable_at_tge_percentage = 100 then
    if cliff_duration > 0 ∨ vesting_duration > 0 then
      .error (.UnprocessableEntity
        "cliff_duration and vesting_duration must be 0 when collectable_tge_percentage is 100")
    else if start + cliff_duration + vesting_duration > U64_MAX then
      .error (.UnprocessableEntity
        "Combination of start, cliff_duration and vesting_duration exceeds limit")
    else .ok ()
  else if vesting_duration = 0 then
    .error (.UnprocessableEntity
      "vesting_duration must be greater than 0 when collectable_tge_percentage is not 100")
  else if start + cliff_duration + vesting_duration > U64_MAX then
    .error (.UnprocessableEntity
      "Combination of start, cliff_duration and vesting_duration exceeds limit")
  else .ok ()

/-- Constructor new from src/lib.rs lines 89-116. -/
def new (caller token : Nat) (start : Nat)
    (default_collectable_at_tge_percentage : Nat)
    (default_cliff_duration default_vesting_duration : Nat) :
    Except AzAirdropError AzAirdrop :=
  match validate_airdrop_calculation_variables start
      default_collectable_at_tge_percentage default_cliff_duration
      default_vesting_duration with
  | .error e => .error e
  | .ok _ =>
    .ok { admin := caller
          sub_admins_mapping := []
          sub_admins_as_vec := []
          token := token
          to_be_collected := 0
          start := start
          recipients := []
          default_collectable_at_tge_percentage :=
            default_collectable_at_tge_percentage
          default_cliff_duration := default_cliff_duration
          default_vesting_duration := default_vesting_duration }

/-- Query show from src/lib.rs lines 178-183 (renamed: show is a Lean
keyword). -/
def show_recipient (s : AzAirdrop) (address : Nat) :
    Except AzAirdropError Recipient :=
  match mapGet s.recipients address with
  | none => .error (.NotFound "Recipient")
  | some r => .ok r

/-- Query collectable_amount from src/lib.rs lines 122-162. Result none
models a panic: the as_u128 conversions, the u64 addition
start + cliff_duration, the u128 subtraction total_amount - collectable_at_tge
and the u128 addition on line 154 are overflow-checked. The U256 products are
exact (factors below 2^136 and 2^192). -/
def collectable_amount_body (start : Nat) (r : Recipient)
    (timestamp : Nat) : Option (Except AzAirdropError Nat) :=
  if timestamp ≥ start then
    if r.collectable_at_tge_percentage * r.total_amount / 100 > U128_MAX then
      none
    else if r.vesting_duration > 0 then
      if start + r.cliff_duration > U64_MAX then none
      else if timestamp ≥ start + r.cliff_duration then
        if r.total_amount <
            r.collectable_at_tge_percentage * r.total_amount / 100 then none
        else if (timestamp - (start + r.cliff_duration)) *
              (r.total_amount -
                r.collectable_at_tge_percentage * r.total_amount / 100) /
              r.vesting_duration > U128_MAX then none
        else if r.collectable_at_tge_percentage * r.total_amount / 100 +
              (timestamp - (start + r.cliff_duration)) *
                (r.total_amount -
                  r.collectable_at_tge_percentage * r.total_amount / 100) /
                r.vesting_duration > U128_MAX then none
        else
          some (.ok
            (min
              (r.collectable_at_tge_percentage * r.total_amount / 100 +
                (timestamp - (start + r.cliff_duration)) *
                  (r.total_amount -
                    r.collectable_at_tge_percentage * r.total_amount / 100) /
                  r.vesting_duration)
              r.total_amount - r.collected))
      else
        some (.ok
          (min (r.collectable_at_tge_percentage * r.total_amount / 100)
            r.total_amount - r.collected))
    else
      some (.ok
        (min (r.collectable_at_tge_percentage * r.total_amount / 100)
          r.total_amount - r.collected))
  else some (.ok (0 - r.collected))

/-- Query collectable_amount from src/lib.rs lines 122-162: recipient lookup
followed by collectable_amount_body (which is written with the source's
intermediate values inlined: collectable_at_tge is the tge quotient,
vesting_start is start + cliff_duration, vesting_collectable is the second
quotient). -/
def collectable_amount (s : AzAirdrop) (address : Nat)
    (timestamp : Nat) : Option (Except AzAirdropError Nat) :=
  match show_recipient s address with
  | .error e => some (.error e)
  | .ok r => collectable_amount_body s.start r timestamp

/-- Private helper airdrop_has_not_started from src/lib.rs lines 484-493. -/
def airdrop_has_not_started (env : Env) (s : AzAirdrop) :
    Except AzAirdropError Unit :=
  if env.now ≥ s.start then
    .error (.UnprocessableEntity "Airdrop has started")
  else .ok ()

/-- Private helper authorise from src/lib.rs lines 495-501. -/
def authorise (allowed received : Nat) : Except AzAirdropError Unit :=
  if allowed ≠ received then .error .Unauthorised else .ok ()

/-- Private helper authorise_to_update_recipient from src/lib.rs
lines 503-510. -/
def authorise_to_update_recipient (env : Env) (s : AzAirdrop) :
    Except AzAirdropError Unit :=
  if env.caller = s.admin ∨ s.sub_admins_mapping.contains env.caller then
    .ok ()
  else .error .Unauthorised

/-- Message recipient_add from src/lib.rs lines 233-281. The description
argument only feeds the emitted event and is omitted. The u128 increment of
total_amount on line 260 is overflow-checked (none on overflow). -/
def recipient_add (env : Env) (address : Nat) (amount : Nat)
    (s : AzAirdrop) : Option (Except AzAirdropError Recipient × AzAirdrop) :=
  match authorise_to_update_recipient env s with
  | .error e => some (.error e, s)
  | .ok _ =>
  match airdrop_has_not_started env s with
  | .error e => some (.error e, s)
  | .ok _ =>
  if amount + s.to_be_collected > U128_MAX then
    some (.error (.UnprocessableEntity
      "Amount will cause to_be_collected to overflow"), s)
  else
    let new_to_be_collected : Nat := amount + s.to_be_collected
    if new_to_be_collected > env.balance then
      some (.error (.UnprocessableEntity "Insufficient balance"), s)
    else
      let recipient : Recipient :=
        (mapGet s.recipients address).getD
          { total_amount := 0
            collected := 0
            collectable_at_tge_percentage :=
              s.default_collectable_at_tge_percentage
            cliff_duration := s.default_cliff_duration
            vesting_duration := s.default_vesting_duration }
      if recipient.total_amount + amount > U128_MAX then none
      else
        let recipient' : Recipient :=
          { recipient with total_amount := recipient.total_amount + amount }
        some (.ok recipient',
          { s with recipients := mapInsert s.recipients address recipient'
                   to_be_collected := new_to_be_collected })

/-- Message recipient_subtract from src/lib.rs lines 283-320. The u128
decrement of total_amount is guarded by the explicit comparison; the
to_be_collected update is a saturating subtraction. -/
def recipient_subtract (env : Env) (address : Nat) (amount : Nat)
    (s : AzAirdrop) : Option (Except AzAirdropError Recipient × AzAirdrop) :=
  match authorise_to_update_recipient env s with
  | .error e => some (.error e, s)
  | .ok _ =>
  match airdrop_has_not_started env s with
  | .error e => some (.error e, s)
  | .ok _ =>
  match mapGet s.recipients address with
  | none => some (.error (.NotFound "Recipient"), s)
  | some recipient =>
    if amount > recipient.total_amount then
      some (.error (.UnprocessableEntity
        "Amount is greater than recipient's total amount"), s)
    else
      let recipient' : Recipient :=
        { recipient with total_amount := recipient.total_amount - amount }
      some (.ok recipient',
        { s with recipients := mapInsert s.recipients address recipient'
                 to_be_collected := s.to_be_collected - amount })

/-- Message update_recipient from src/lib.rs lines 450-481. -/
def update_recipient (env : Env) (address : Nat)
    (collectable_at_tge_percentage : Option Nat)
    (cliff_duration vesting_duration : Option Nat) (s : AzAirdrop) :
    Option (Except AzAirdropError Recipient × AzAirdrop) :=
  match authorise_to_update_recipient env s with
  | .error e => some (.error e, s)
  | .ok _ =>
  match airdrop_has_not_started env s with
  | .error e => some (.error e, s)
  | .ok _ =>
  match mapGet s.recipients address with
  | none => some (.error (.NotFound "Recipient"), s)
  | some recipient =>
    let r1 : Recipient :=
      { recipient with
        collectable_at_tge_percentage :=
          collectable_at_tge_percentage.getD
            recipient.collectable_at_tge_percentage
        cliff_duration := cliff_duration.getD recipient.cliff_duration
        vesting_duration := vesting_duration.getD recipient.vesting_duration }
    match validate_airdrop_calculation_variables s.start
        r1.collectable_at_tge_percentage r1.cliff_duration
        r1.vesting_duration with
    | .error e => some (.error e, s)
    | .ok _ =>
      some (.ok r1, { s with recipients := mapInsert s.recipients address r1 })

/-- Message update_config from src/lib.rs lines 395-448, with the source's
assignment order: admin is assigned before the start checks, and the three
defaults are assigned before the final validation, so an error result can
carry a partially mutated state (restored by the step wrapper). -/
def update_config (env : Env) (admin : Option Nat)
    (start : Option Nat)
    (default_collectable_at_tge_percentage : Option Nat)
    (default_cliff_duration default_vesting_duration : Option Nat)
    (s : AzAirdrop) : Option (Except AzAirdropError Unit × AzAirdrop) :=
  match authorise env.caller s.admin with
  | .error e => some (.error e, s)
  | .ok _ =>
  let s1 : AzAirdrop :=
    match admin with
    | some a => { s with admin := a }
    | none => s
  match start with
  | some st =>
    if st > env.now then
      if s1.to_be_collected = 0 then
        update_config_tail env default_collectable_at_tge_percentage
          default_cliff_duration default_vesting_duration
          { s1 with start := st }
      else
        some (.error (.UnprocessableEntity
          "to_be_collected must be zero when changing start time"), s1)
    else
      some (.error (.UnprocessableEntity
        "New start time must be in the future"), s1)
  | none =>
    update_config_tail env default_collectable_at_tge_percentage
      default_cliff_duration default_vesting_duration s1
where
  /-- Tail of update_config after the start handling: assign the three
  defaults, then re-validate the full combination. -/
  update_config_tail (_env : Env)
      (default_collectable_at_tge_percentage : Option Nat)
      (default_cliff_duration default_vesting_duration : Option Nat)
      (s2 : AzAirdrop) : Option (Except AzAirdropError Unit × AzAirdrop) :=
    let s3 : AzAirdrop :=
      { s2 with
        default_collectable_at_tge_percentage :=
          default_collectable_at_tge_percentage.getD
            s2.default_collectable_at_tge_percentage
        default_cliff_duration :=
          default_cliff_duration.getD s2.default_cliff_duration
        default_vesting_duration :=
          default_vesting_duration.getD s2.default_vesting_duration }
    match validate_airdrop_calculation_variables s3.start
        s3.default_collectable_at_tge_percentage s3.default_cliff_duration
        s3.default_vesting_duration with
    | .error e => some (.error e, s3)
    | .ok _ => some (.ok (), s3)

/-- Message collect from src/lib.rs lines 206-230. The collected increment is
a saturating u128 addition; the to_be_collected decrement is saturating. A
failing external transfer aborts with the wrapped environment error. -/
def collect (env : Env) (s : AzAirdrop) :
    Option (Except AzAirdropError Nat × AzAirdrop) :=
  match mapGet s.recipients env.caller with
  | none => some (.error (.NotFound "Recipient"), s)
  | some recipient =>
    match collectable_amount s env.caller env.now with
    | none => none
    | some (.error e) => some (.error e, s)
    | some (.ok ca) =>
      if ca = 0 then
        some (.error (.UnprocessableEntity "Amount is zero"), s)
      else if env.transferOk then
        let recipient' : Recipient :=
          { recipient with collected := min (recipient.collected + ca) U128_MAX }
        some (.ok ca,
          { s with recipients := mapInsert s.recipients env.caller recipient'
                   to_be_collected := s.to_be_collected - ca })
      else some (.error (.InkEnvError "transfer failed"), s)

/-- Message acquire_token from src/lib.rs lines 186-204. The token movement is
external; only the call outcome matters to contract state. -/
def acquire_token (env : Env) (_amount : Nat) (_from : Nat)
    (s : AzAirdrop) : Option (Except AzAirdropError Unit × AzAirdrop) :=
  match authorise env.caller s.admin with
  | .error e => some (.error e, s)
  | .ok _ =>
  match airdrop_has_not_started env s with
  | .error e => some (.error e, s)
  | .ok _ =>
  if env.transferFromOk then some (.ok (), s)
  else some (.error (.InkEnvError "transfer_from failed"), s)

/-- Message return_spare_tokens from src/lib.rs lines 322-342. The spare
amount is a saturating subtraction; no contract storage is mutated. -/
def return_spare_tokens (env : Env) (s : AzAirdrop) :
    Option (Except AzAirdropError Nat × AzAirdrop) :=
  match authorise env.caller s.admin with
  | .error e => some (.error e, s)
  | .ok _ =>
  let spare_amount : Nat := env.balance - s.to_be_collected
  if spare_amount > 0 then
    if env.transferOk then some (.ok spare_amount, s)
    else some (.error (.InkEnvError "transfer failed"), s)
  else some (.error (.UnprocessableEntity "Amount is zero"), s)

/-- Message sub_admins_add from src/lib.rs lines 344-361. -/
def sub_admins_add (env : Env) (address : Nat) (s : AzAirdrop) :
    Option (Except AzAirdropError (List Nat) × AzAirdrop) :=
  match authorise env.caller s.admin with
  | .error e => some (.error e, s)
  | .ok _ =>
  if s.sub_admins_mapping.contains address then
    some (.error (.UnprocessableEntity "Already a sub admin"), s)
  else
    let vec' : List Nat := s.sub_admins_as_vec ++ [address]
    some (.ok vec',
      { s with sub_admins_as_vec := vec'
               sub_admins_mapping := address :: s.sub_admins_mapping })

/-- Message sub_admins_remove from src/lib.rs lines 363-381. The source
unwraps the vector position of the address; absence from the vector while
present in the mapping would panic (none). -/
def sub_admins_remove (env : Env) (address : Nat) (s : AzAirdrop) :
    Option (Except AzAirdropError (List Nat) × AzAirdrop) :=
  match authorise env.caller s.admin with
  | .error e => some (.error e, s)
  | .ok _ =>
  if s.sub_admins_mapping.contains address then
    match s.sub_admins_as_vec.findIdx? (fun x => x = address) with
    | none => none
    | some i =>
      let vec' : List Nat := s.sub_admins_as_vec.eraseIdx i
      some (.ok vec',
        { s with sub_admins_as_vec := vec'
                 sub_admins_mapping := s.sub_admins_mapping.erase address })
  else some (.error (.UnprocessableEntity "Not a sub admin"), s)

/-- One public mutating operation with its arguments. Query messages (config,
show, collectable_amount) take the state by value and cannot mutate it. -/
inductive Op where
  | opRecipientAdd (address : Nat) (amount : Nat) : Op
  | opRecipientSubtract (address : Nat) (amount : Nat) : Op
  | opUpdateRecipient (address : Nat) (p : Option Nat)
      (c v : Option Nat) : Op
  | opUpdateConfig (admin : Option Nat) (start : Option Nat)
      (p : Option Nat) (c v : Option Nat) : Op
  | opCollect : Op
  | opAcquireToken (amount : Nat) (fromAddr : Nat) : Op
  | opReturnSpareTokens : Op
  | opSubAdminsAdd (address : Nat) : Op
  | opSubAdminsRemove (address : Nat) : Op
deriving DecidableEq

/-- Transactional semantics of one message invocation: the ink! dispatcher
reverts all storage mutations when the message returns an error (spec
section 5: any error aborts the operation with no observable state change),
and a panic (none) aborts the call entirely. Return values are erased to
Unit for uniformity. -/
def step (op : Op) (env : Env) (s : AzAirdrop) :
    Option (Except AzAirdropError Unit × AzAirdrop) :=
  match op with
  | .opRecipientAdd a amt =>
    match recipient_add env a amt s with
    | none => none
    | some (.ok _, s') => some (.ok (), s')
    | some (.error e, _) => some (.error e, s)
  | .opRecipientSubtract a amt =>
    match recipient_subtract env a amt s with
    | none => none
    | some (.ok _, s') => some (.ok (), s')
    | some (.error e, _) => some (.error e, s)
  | .opUpdateRecipient a p c v =>
    match update_recipient env a p c v s with
    | none => none
    | some (.ok _, s') => some (.ok (), s')
    | some (.error e, _) => some (.error e, s)
  | .opUpdateConfig a st p c v =>
    match update_config env a st p c v s with
    | none => none
    | some (.ok _, s') => some (.ok (), s')
    | some (.error e, _) => some (.error e, s)
  | .opCollect =>
    match collect env s with
    | none => none
    | some (.ok _, s') => some (.ok (), s')
    | some (.error e, _) => some (.error e, s)
  | .opAcquireToken amt f =>
    match acquire_token env amt f s with
    | none => none
    | some (.ok _, s') => some (.ok (), s')
    | some (.error e, _) => some (.error e, s)
  | .opReturnSpareTokens =>
    match return_spare_tokens env s with
    | none => none
    | some (.ok _, s') => some (.ok (), s')
    | some (.error e, _) => some (.error e, s)
  | .opSubAdminsAdd a =>
    match sub_admins_add env a s with
    | none => none
    | some (.ok _, s') => some (.ok (), s')
    | some (.error e, _) => some (.error e, s)
  | .opSubAdminsRemove a =>
    match sub_admins_remove env a s with
    | none => none
    | some (.ok _, s') => some (.ok (), s')
    | some (.error e, _) => some (.error e, s)

/-- States reachable from a freshly constructed contract by any sequence of
public operations, each run under an arbitrary environment. -/
inductive Reachable : AzAirdrop → Prop where
  | init (caller token : Nat) (start : Nat) (p : Nat)
      (c v : Nat) (s : AzAirdrop) :
      new caller token start p c v = .ok s → Reachable s
  | step (s : AzAirdrop) (op : Op) (env : Env)
      (r : Except AzAirdropError Unit) (s' : AzAirdrop) :
      Reachable s → step op env s = some (r, s') → Reachable s'

/-- Amount still owed to one recipient record. -/
def owed (r : Recipient) : Nat := r.total_amount - r.collected

/-- Sum over all stored recipient records of total_amount - collected. -/
def sumOwed : List (Nat × Recipient) → Nat
  | [] => 0
  | p :: t => owed p.2 + sumOwed t

/-- Restriction on a subtraction step: the subtracted amount stays within the
target's still-owed amount (total_amount - collected). -/
def subtractWithinOwed (op : Op) (s : AzAirdrop) : Prop :=
  ∀ a amt, op = Op.opRecipientSubtract a amt →
    ∀ r, mapGet s.recipients a = some r →
      amt ≤ r.total_amount - r.collected

/-- Reachability where every recipient_subtract step satisfies
subtractWithinOwed. -/
inductive ReachableRestricted : AzAirdrop → Prop where
  | init (caller token : Nat) (start : Nat) (p : Nat)
      (c v : Nat) (s : AzAirdrop) :
      new caller token start p c v = .ok s → ReachableRestricted s
  | step (s : AzAirdrop) (op : Op) (env : Env)
      (r : Except AzAirdropError Unit) (s' : AzAirdrop) :
      ReachableRestricted s → subtractWithinOwed op s →
      step op env s = some (r, s') → ReachableRestricted s'

/-- Ledger invariant: every record has collected at most total_amount and
total_amount within the u128 domain, the aggregate equals the owed sum, and
the aggregate is within the u128 domain. -/
def LedgerInv (s : AzAirdrop) : Prop :=
  (∀ k r, mapGet s.recipients k = some r →
    r.collected ≤ r.total_amount ∧ r.total_amount ≤ U128_MAX) ∧
  s.to_be_collected = sumOwed s.recipients ∧
  s.to_be_collected ≤ U128_MAX

/-- Environment with both external token calls succeeding. -/
def mkEnv (caller now balance : Nat) : Env :=
  { caller := caller, now := now, balance := balance,
    transferOk := true, transferFromOk := true }

/-- Freshly constructed contract: admin 1, token 9, start 1000, defaults
tge 50 percent, cliff 0, vesting 100. -/
def cexS0 : AzAirdrop :=
  { admin := 1, sub_admins_mapping := [], sub_admins_as_vec := [], token := 9,
    to_be_collected := 0, start := 1000, recipients := [],
    default_collectable_at_tge_percentage := 50, default_cliff_duration := 0,
    default_vesting_duration := 100 }

/-- cexS0 after recipient_add of 10 to address 7 (before start). -/
def cexS1 : AzAirdrop :=
  { cexS0 with recipients := [(7, ⟨10, 0, 50, 0, 100⟩)], to_be_collected := 10 }

/-- cexS1 after address 7 collects 5 at the start time. -/
def cexS2 : AzAirdrop :=
  { cexS0 with recipients := [(7, ⟨10, 5, 50, 0, 100⟩)], to_be_collected := 5 }

/-- cexS2 after address 7 collects the remaining 5 at full vesting. -/
def cexS3 : AzAirdrop :=
  { cexS0 with recipients := [(7, ⟨10, 10, 50, 0, 100⟩)], to_be_collected := 0 }

/-- cexS3 after update_config moves start into the future (to_be_collected is
zero, so the start change is allowed). -/
def cexS4 : AzAirdrop := { cexS3 with start := 2000 }

/-- cexS4 after recipient_add of 2 more to address 7: a record with
collected 10 below total_amount 12, editable again before the new start. -/
def cexS5 : AzAirdrop :=
  { cexS4 with recipients := [(7, ⟨12, 10, 50, 0, 100⟩)],
               to_be_collected := 2 }

/-- cexS5 after recipient_add of 10 to a second address 8. -/
def cexS6 : AzAirdrop :=
  { cexS4 with recipients := [(7, ⟨12, 10, 50, 0, 100⟩),
                              (8, ⟨10, 0, 50, 0, 100⟩)],
               to_be_collected := 12 }

/-- cexS6 after recipient_subtract of 12 from address 7: its total_amount
drops to 0 below collected 10, and to_be_collected saturates to 0 while
address 8 is still owed 10. -/
def cexS7 : AzAirdrop :=
  { cexS4 with recipients := [(7, ⟨0, 10, 50, 0, 100⟩),
                              (8, ⟨10, 0, 50, 0, 100⟩)],
               to_be_collected := 0 }

/-- Freshly constructed contract whose default cliff nearly exhausts the u64
timestamp range: start 10, tge 0 percent, cliff U64_MAX - 11, vesting 1
(start + cliff + vesting = U64_MAX passes validation). -/
def c4S0 : AzAirdrop :=
  { admin := 1, sub_admins_mapping := [], sub_admins_as_vec := [], token := 9,
    to_be_collected := 0, start := 10, recipients := [],
    default_collectable_at_tge_percentage := 0,
    default_cliff_duration := U64_MAX - 11, default_vesting_duration := 1 }

/-- c4S0 after recipient_add of amount 0 to address 7: the record copies the
huge default cliff while to_be_collected stays 0. -/
def c4S1 : AzAirdrop :=
  { c4S0 with recipients := [(7, ⟨0, 0, 0, U64_MAX - 11, 1⟩)] }

/-- c4S1 after update_config sets start to U64_MAX - 5 and the default cliff
to 0: validation only re-checks the defaults, not the stored record, so
start + cliff_duration for address 7 now exceeds U64_MAX. -/
def c4S2 : AzAirdrop :=
  { c4S1 with start := U64_MAX - 5, default_cliff_duration := 0 }

/-- Freshly constructed contract for the update_config rollback
demonstration: defaults tge 100 percent, cliff 0, vesting 0. -/
def demoS0 : AzAirdrop :=
  { admin := 1, sub_admins_mapping := [], sub_admins_as_vec := [], token := 9,
    to_be_collected := 0, start := 1000, recipients := [],
    default_collectable_at_tge_percentage := 100, default_cliff_duration := 0,
    default_vesting_duration := 0 }

/-- Intermediate state of the failing update_config body: admin and the
default percentage were assigned before the final validation rejected the
combination. -/
def demoS1 : AzAirdrop :=
  { demoS0 with admin := 2, default_collectable_at_tge_percentage := 50 }

/-- Contract state for the collect counterexample: recipient 7 fully
unlocked (tge 100 percent, start 0) with 5 still owed. -/
def c9S : AzAirdrop :=
  { admin := 1, sub_admins_mapping := [], sub_admins_as_vec := [], token := 9,
    to_be_collected := 5, start := 0,
    recipients := [(7, ⟨5, 0, 100, 0, 0⟩)],
    default_collectable_at_tge_percentage := 100, default_cliff_duration := 0,
    default_vesting_duration := 0 }

/-- Environment for the collect counterexample: recipient 7 calls collect at
time 0 and the external token transfer fails. -/
def c9Env : Env :=
  { caller := 7, now := 0, balance := 5,
    transferOk := false, transferFromOk := true }

/-- Collectable amount written from the words of the specification (spec
sections 4.2 and 8, claim C2): zero before start; otherwise the TGE share
floor(tge_percent * total / 100) plus the linear vested part, capped at
total_amount, minus collected, clamped at zero. -/
def spec_collectable (start : Nat) (r : Recipient) (t : Nat) :
    Nat :=
  if t < start then 0
  else
    min r.total_amount
      (r.collectable_at_tge_percentage * r.total_amount / 100 +
        (if r.vesting_duration = 0 ∨ t < start + r.cliff_duration then 0
         else
           (t - (start + r.cliff_duration)) *
             (r.total_amount -
               r.collectable_at_tge_percentage * r.total_amount / 100) /
             r.vesting_duration)) - r.collected

/-- Reachability of the state violating the aggregate identity and the
collected-below-total invariant, via: construct; add 10 to address 7; let 7
collect 5 at start and 5 at full vesting; move start forward (aggregate is
zero); add 2 to address 7 and 10 to address 8; subtract 12 from address 7.
Block timestamps are non-decreasing along the trace. -/
theorem cexS7_reachable : Reachable cexS7 := by
  have h0 : Reachable cexS0 :=
    Reachable.init 1 9 1000 50 0 100 cexS0 (by decide)
  have h1 : Reachable cexS1 :=
    Reachable.step cexS0 (.opRecipientAdd 7 10) (mkEnv 1 10 10) (.ok ())
      cexS1 h0 (by decide)
  have h2 : Reachable cexS2 :=
    Reachable.step cexS1 .opCollect (mkEnv 7 1000 0) (.ok ()) cexS2 h1
      (by decide)
  have h3 : Reachable cexS3 :=
    Reachable.step cexS2 .opCollect (mkEnv 7 1100 0) (.ok ()) cexS3 h2
      (by decide)
  have h4 : Reachable cexS4 :=
    Reachable.step cexS3 (.opUpdateConfig none (some 2000) none none none)
      (mkEnv 1 1100 0) (.ok ()) cexS4 h3 (by decide)
  have h5 : Reachable cexS5 :=
    Reachable.step cexS4 (.opRecipientAdd 7 2) (mkEnv 1 1200 2) (.ok ())
      cexS5 h4 (by decide)
  have h6 : Reachable cexS6 :=
    Reachable.step cexS5 (.opRecipientAdd 8 10) (mkEnv 1 1250 12) (.ok ())
      cexS6 h5 (by decide)
  exact Reachable.step cexS6 (.opRecipientSubtract 7 12) (mkEnv 1 1300 0)
    (.ok ()) cexS7 h6 (by decide)

/-- C1 counterexample: a state reachable by public operations in which
to_be_collected (0) differs from the sum over recipients of
total_amount - collected (10): recipient_subtract of an amount exceeding
total_amount - collected saturates the aggregate while another recipient is
still owed tokens. -/
theorem c1_counterexample :
    Reachable cexS7 ∧ cexS7.to_be_collected ≠ sumOwed cexS7.recipients :=
  ⟨cexS7_reachable, by decide⟩

/-- C3 counterexample: a reachable state containing a recipient record with
total_amount (0) strictly below collected (10), produced by
recipient_subtract after update_config moved start back into the future. -/
theorem c3_counterexample :
    Reachable cexS7 ∧ ∃ r, mapGet cexS7.recipients 7 = some r ∧
      r.total_amount < r.collected :=
  ⟨cexS7_reachable, ⟨⟨0, 10, 50, 0, 100⟩, by decide, by decide⟩⟩

/-- C4: collectable_amount is not total on reachable states: after a
recipient inherits a huge default cliff_duration and update_config later
moves start close to U64_MAX (re-validating only the defaults, not stored
records), the u64 addition start + cliff_duration overflows, contradicting
the source comment that it cannot overflow. The none result models the
panic. -/
theorem c4_theorem :
    Reachable c4S2 ∧
    mapGet c4S2.recipients 7 = some ⟨0, 0, 0, U64_MAX - 11, 1⟩ ∧
    collectable_amount c4S2 7 (U64_MAX - 5) = none := by
  refine ⟨?_, by decide, by decide⟩
  have h0 : Reachable c4S0 :=
    Reachable.init 1 9 10 0 (U64_MAX - 11) 1 c4S0 (by decide)
  have h1 : Reachable c4S1 :=
    Reachable.step c4S0 (.opRecipientAdd 7 0) (mkEnv 1 0 0) (.ok ()) c4S1 h0
      (by decide)
  exact Reachable.step c4S1
    (.opUpdateConfig none (some (U64_MAX - 5)) none (some 0) none)
    (mkEnv 1 0 0) (.ok ()) c4S2 h1 (by decide)

/-- C5: whenever a public operation returns an error the durable state is
exactly what it was before the call; in particular the failing update_config
below assigns admin and the default percentage before its final validation
rejects the combination (demoS1 records the mutated intermediate state), yet
the dispatched call leaves the state untouched. -/
theorem c5_theorem :
    (∀ (op : Op) (env : Env) (s : AzAirdrop) (e : AzAirdropError)
      (s' : AzAirdrop), step op env s = some (.error e, s') → s' = s) ∧
    (update_config (mkEnv 1 0 0) (some 2) none (some 50) none none demoS0 =
      some (.error (.UnprocessableEntity
        "vesting_duration must be greater than 0 when collectable_tge_percentage is not 100"),
        demoS1) ∧
     demoS0.admin = 1 ∧ demoS1.admin = 2 ∧
     step (.opUpdateConfig (some 2) none (some 50) none none) (mkEnv 1 0 0)
        demoS0 =
      some (.error (.UnprocessableEntity
        "vesting_duration must be greater than 0 when collectable_tge_percentage is not 100"),
        demoS0)) := by
  constructor
  · intro op env s e s' h
    cases op <;> (simp only [step] at h; split at h <;> simp_all)
  · exact ⟨by decide, by decide, by decide, by decide⟩

/-- C5 witness: the failing update_config call above leaves the state
unchanged. -/
theorem c5_witness : demoS0 = demoS0 :=
  c5_theorem.1 (.opUpdateConfig (some 2) none (some 50) none none)
    (mkEnv 1 0 0) demoS0
    (.UnprocessableEntity
      "vesting_duration must be greater than 0 when collectable_tge_percentage is not 100")
    demoS0 (by decide)

/-- The owed amount of a stored record is at most the owed sum. -/
theorem owed_le_sumOwed (l : List (Nat × Recipient)) (k : Nat)
    (r : Recipient) (h : mapGet l k = some r) : owed r ≤ sumOwed l := by
  induction l with
  | nil => simp [mapGet] at h
  | cons p t ih =>
    obtain ⟨a, b⟩ := p
    simp only [mapGet] at h
    by_cases hak : a = k
    · rw [if_pos hak] at h
      cases h
      simp only [sumOwed]
      omega
    · rw [if_neg hak] at h
      have := ih h
      simp only [sumOwed]
      omega

/-- Replacing a stored record changes the owed sum by the difference of the
owed amounts (stated additively to avoid truncation). -/
theorem sumOwed_mapInsert_present (l : List (Nat × Recipient))
    (k : Nat) (r v : Recipient) (h : mapGet l k = some r) :
    sumOwed (mapInsert l k v) + owed r = sumOwed l + owed v := by
  induction l with
  | nil => simp [mapGet] at h
  | cons p t ih =>
    obtain ⟨a, b⟩ := p
    simp only [mapGet] at h
    by_cases hak : a = k
    · rw [if_pos hak] at h
      cases h
      simp only [mapInsert, if_pos hak, sumOwed]
      omega
    · rw [if_neg hak] at h
      have := ih h
      simp only [mapInsert, if_neg hak, sumOwed]
      omega

/-- Inserting a fresh record adds its owed amount to the owed sum. -/
theorem sumOwed_mapInsert_absent (l : List (Nat × Recipient))
    (k : Nat) (v : Recipient) (h : mapGet l k = none) :
    sumOwed (mapInsert l k v) = sumOwed l + owed v := by
  induction l with
  | nil => simp [mapInsert, sumOwed, owed]
  | cons p t ih =>
    obtain ⟨a, b⟩ := p
    simp only [mapGet] at h
    by_cases hak : a = k
    · rw [if_pos hak] at h
      cases h
    · rw [if_neg hak] at h
      have := ih h
      simp only [mapInsert, if_neg hak, sumOwed]
      omega

/-- A record found after an insert is the inserted one or was already
stored. -/
theorem mapGet_mapInsert_cases (l : List (Nat × Recipient))
    (k : Nat) (v : Recipient) (k' : Nat) (r' : Recipient)
    (h : mapGet (mapInsert l k v) k' = some r') :
    r' = v ∨ mapGet l k' = some r' := by
  induction l with
  | nil =>
    simp only [mapInsert, mapGet] at h
    by_cases hk : k = k'
    · rw [if_pos hk] at h
      cases h
      exact Or.inl rfl
    · rw [if_neg hk] at h
      cases h
  | cons p t ih =>
    obtain ⟨a, b⟩ := p
    simp only [mapInsert] at h
    by_cases hak : a = k
    · rw [if_pos hak] at h
      simp only [mapGet] at h ⊢
      by_cases hk : k = k'
      · rw [if_pos hk] at h
        cases h
        exact Or.inl rfl
      · rw [if_neg hk] at h
        rw [hak, if_neg hk]
        exact Or.inr h
    · rw [if_neg hak] at h
      simp only [mapGet] at h ⊢
      by_cases hak' : a = k'
      · rw [if_pos hak'] at h ⊢
        exact Or.inr h
      · rw [if_neg hak'] at h ⊢
        exact ih h

/-- Reading collectable_amount through a stored record reduces it to the
body. -/
theorem collectable_amount_of_get (s : AzAirdrop) (a : Nat)
    (t : Nat) (r : Recipient) (hget : mapGet s.recipients a = some r) :
    collectable_amount s a t = collectable_amount_body s.start r t := by
  unfold collectable_amount show_recipient
  rw [hget]

/-- Reading collectable_amount of a missing record yields NotFound. -/
theorem collectable_amount_of_get_none (s : AzAirdrop) (a : Nat)
    (t : Nat) (hget : mapGet s.recipients a = none) :
    collectable_amount s a t = some (.error (.NotFound "Recipient")) := by
  unfold collectable_amount show_recipient
  rw [hget]

/-- A successful collectable_amount call implies the recipient is stored. -/
theorem collectable_ok_exists (s : AzAirdrop) (a : Nat) (t : Nat)
    (v : Nat) (h : collectable_amount s a t = some (.ok v)) :
    ∃ r, mapGet s.recipients a = some r := by
  cases hget : mapGet s.recipients a with
  | none => rw [collectable_amount_of_get_none s a t hget] at h; simp at h
  | some r => exact ⟨r, rfl⟩

/-- Returned collectable values agree with the specification formula
spec_collectable. -/
theorem collectable_ok_formula (s : AzAirdrop) (a : Nat)
    (t : Nat) (r : Recipient) (v : Nat)
    (hget : mapGet s.recipients a = some r)
    (h : collectable_amount s a t = some (.ok v)) :
    v = spec_collectable s.start r t := by
  rw [collectable_amount_of_get s a t r hget] at h
  unfold collectable_amount_body at h
  unfold spec_collectable
  split at h
  · rw [if_neg (show ¬ t < s.start by omega)]
    split at h
    · exact Option.noConfusion h
    · split at h
      · -- vesting_duration > 0
        split at h
        · exact Option.noConfusion h
        · split at h
          · -- t ≥ vesting_start
            split at h
            · exact Option.noConfusion h
            · split at h
              · exact Option.noConfusion h
              · split at h
                · exact Option.noConfusion h
                · simp only [Option.some.injEq, Except.ok.injEq] at h
                  rw [if_neg (show ¬ (r.vesting_duration = 0 ∨
                      t < s.start + r.cliff_duration) by omega),
                    ← h, Nat.min_comm]
          · -- t < vesting_start
            simp only [Option.some.injEq, Except.ok.injEq] at h
            rw [if_pos (show r.vesting_duration = 0 ∨
                t < s.start + r.cliff_duration by omega),
              Nat.add_zero, ← h, Nat.min_comm]
      · -- vesting_duration = 0
        simp only [Option.some.injEq, Except.ok.injEq] at h
        rw [if_pos (show r.vesting_duration = 0 ∨
            t < s.start + r.cliff_duration by omega),
          Nat.add_zero, ← h, Nat.min_comm]
  · simp only [Option.some.injEq, Except.ok.injEq] at h
    rw [if_pos (show t < s.start by omega)]
    omega

/-- The specification formula never exceeds total_amount - collected. -/
theorem spec_collectable_le (start : Nat) (r : Recipient)
    (t : Nat) : spec_collectable start r t ≤
      r.total_amount - r.collected := by
  unfold spec_collectable
  split
  · exact Nat.zero_le _
  · exact Nat.sub_le_sub_right (Nat.min_le_left _ _) _

/-- The value returned by collectable_amount never exceeds the stored
record's total_amount - collected. -/
theorem collectable_ok_le (s : AzAirdrop) (a : Nat) (t : Nat)
    (r : Recipient) (v : Nat) (hget : mapGet s.recipients a = some r)
    (h : collectable_amount s a t = some (.ok v)) :
    v ≤ r.total_amount - r.collected := by
  rw [collectable_ok_formula s a t r v hget h]
  exact spec_collectable_le s.start r t

/-- The specification formula is monotone in the timestamp. -/
theorem spec_collectable_mono (start : Nat) (r : Recipient)
    (t1 t2 : Nat) (h12 : t1 ≤ t2) :
    spec_collectable start r t1 ≤ spec_collectable start r t2 := by
  unfold spec_collectable
  by_cases h1 : t1 < start
  · rw [if_pos h1]
    exact Nat.zero_le _
  · rw [if_neg h1, if_neg (show ¬ t2 < start by omega)]
    have hv : (if r.vesting_duration = 0 ∨ t1 < start + r.cliff_duration
          then 0
          else (t1 - (start + r.cliff_duration)) *
            (r.total_amount -
              r.collectable_at_tge_percentage * r.total_amount / 100) /
            r.vesting_duration) ≤
        (if r.vesting_duration = 0 ∨ t2 < start + r.cliff_duration
          then 0
          else (t2 - (start + r.cliff_duration)) *
            (r.total_amount -
              r.collectable_at_tge_percentage * r.total_amount / 100) /
            r.vesting_duration) := by
      by_cases hc1 : r.vesting_duration = 0 ∨ t1 < start + r.cliff_duration
      · rw [if_pos hc1]
        exact Nat.zero_le _
      · rw [if_neg hc1, if_neg (show ¬ (r.vesting_duration = 0 ∨
            t2 < start + r.cliff_duration) by omega)]
        exact Nat.div_le_div_right (Nat.mul_le_mul_right _ (by omega))
    exact Nat.sub_le_sub_right
      (min_le_min (Nat.le_refl _) (Nat.add_le_add_left hv _)) _

/-- Contract state for the concrete vesting scenario of the specification:
start 1000, recipient 3 with total_amount 100, tge percentage 20,
cliff_duration 1, vesting_duration 100, collected 0. -/
def c2S : AzAirdrop :=
  { cexS0 with recipients := [(3, ⟨100, 0, 20, 1, 100⟩)] }

/-- C2: the value returned by collectable_amount is the specification
formula (zero before start, else the floored TGE share plus the linear
vested part, capped at total_amount, minus collected, clamped at zero), and
on the concrete scenario (total 100, tge 20 percent, cliff 1, vesting 100,
collected 0, start 1000) it returns 20 at start, 20 at start + 1, 21 at
start + cliff + 2 and 100 at every timestamp from start + cliff + vesting
up to the u64 limit. -/
theorem c2_theorem :
    (∀ (s : AzAirdrop) (a t r v : _), mapGet s.recipients a = some r →
      collectable_amount s a t = some (.ok v) →
      v = spec_collectable s.start r t) ∧
    collectable_amount c2S 3 999 = some (.ok 0) ∧
    collectable_amount c2S 3 1000 = some (.ok 20) ∧
    collectable_amount c2S 3 1001 = some (.ok 20) ∧
    collectable_amount c2S 3 1003 = some (.ok 21) ∧
    (∀ t, 1101 ≤ t → t ≤ U64_MAX → collectable_amount c2S 3 t =
      some (.ok 100)) := by
  refine ⟨?_, by decide, by decide, by decide, by decide, ?_⟩
  · intro s a t r v hget h
    exact collectable_ok_formula s a t r v hget h
  · intro t h1 h2
    rw [collectable_amount_of_get c2S 3 t ⟨100, 0, 20, 1, 100⟩ (by decide)]
    show collectable_amount_body 1000 ⟨100, 0, 20, 1, 100⟩ t = some (.ok 100)
    unfold U64_MAX at h2
    unfold collectable_amount_body
    norm_num [U128_MAX, U64_MAX]
    split
    · split
      · split
        · exfalso
          omega
        · split
          · exfalso
            omega
          · simp only [Option.some.injEq, Except.ok.injEq]
            omega
      · exfalso
        omega
    · exfalso
      omega

/-- C2 witness: the general formula conjunct evaluated on the concrete
scenario recipient at time 1003. -/
theorem c2_witness : (21 : Nat) = spec_collectable 1000 ⟨100, 0, 20, 1, 100⟩ 1003 :=
  c2_theorem.1 c2S 3 1003 ⟨100, 0, 20, 1, 100⟩ 21 (by decide) (by decide)

/-- C7: collectable_amount is monotone in the timestamp: whenever both calls
return values, the earlier value is at most the later one. -/
theorem c7_theorem :
    ∀ (s : AzAirdrop) (a t1 t2 v1 v2 : _), t1 ≤ t2 →
      collectable_amount s a t1 = some (.ok v1) →
      collectable_amount s a t2 = some (.ok v2) → v1 ≤ v2 := by
  intro s a t1 t2 v1 v2 h12 h1 h2
  obtain ⟨r, hget⟩ := collectable_ok_exists s a t1 v1 h1
  rw [collectable_ok_formula s a t1 r v1 hget h1,
    collectable_ok_formula s a t2 r v2 hget h2]
  exact spec_collectable_mono s.start r t1 t2 h12

/-- C7 witness: monotonicity applied on the concrete scenario between times
1000 and 1003. -/
theorem c7_witness : (20 : Nat) ≤ 21 :=
  c7_theorem c2S 3 1000 1003 20 21 (by decide) (by decide) (by decide)

/-- C6: validate_airdrop_calculation_variables succeeds exactly when the
percentage is at most 100, cliff and vesting are 0 if it is 100, vesting is
positive if it is below 100, and start + cliff + vesting fits in u64; in
particular (start, 100, 0, 0) succeeds for any u64 start while
(start, 101, 0, 0), (start, 100, 1, 0) and (start, 50, 1, 0) always fail. -/
theorem c6_theorem :
    (∀ start p c v,
      validate_airdrop_calculation_variables start p c v = .ok () ↔
        (p ≤ 100 ∧ (p = 100 → c = 0 ∧ v = 0) ∧ (p < 100 → 0 < v) ∧
          start + c + v ≤ U64_MAX)) ∧
    (∀ start, start ≤ U64_MAX →
      validate_airdrop_calculation_variables start 100 0 0 = .ok ()) ∧
    (∀ start p c v, 100 < p →
      validate_airdrop_calculation_variables start p c v ≠ .ok ()) ∧
    (∀ start c v, 0 < c ∨ 0 < v →
      validate_airdrop_calculation_variables start 100 c v ≠ .ok ()) ∧
    (∀ start p c, p < 100 →
      validate_airdrop_calculation_variables start p c 0 ≠ .ok ()) ∧
    (∀ start p c v, U64_MAX < start + c + v →
      validate_airdrop_calculation_variables start p c v ≠ .ok ()) ∧
    (∀ start, validate_airdrop_calculation_variables start 101 0 0 ≠ .ok ()) ∧
    (∀ start, validate_airdrop_calculation_variables start 100 1 0 ≠ .ok ()) ∧
    (∀ start, validate_airdrop_calculation_variables start 50 1 0 ≠ .ok ()) := by
  have hiff : ∀ start p c v,
      validate_airdrop_calculation_variables start p c v = .ok () ↔
        (p ≤ 100 ∧ (p = 100 → c = 0 ∧ v = 0) ∧ (p < 100 → 0 < v) ∧
          start + c + v ≤ U64_MAX) := by
    intro start p c v
    unfold validate_airdrop_calculation_variables
    constructor
    · intro h
      split at h
      · exact Except.noConfusion h
      · split at h
        · split at h
          · exact Except.noConfusion h
          · split at h
            · exact Except.noConfusion h
            · omega
        · split at h
          · exact Except.noConfusion h
          · split at h
            · exact Except.noConfusion h
            · omega
    · intro h
      rw [if_neg (show ¬ p > 100 by omega)]
      split
      · rw [if_neg (show ¬ (c > 0 ∨ v > 0) by omega),
          if_neg (show ¬ start + c + v > U64_MAX by omega)]
      · rw [if_neg (show ¬ v = 0 by omega),
          if_neg (show ¬ start + c + v > U64_MAX by omega)]
  refine ⟨hiff, ?_, ?_, ?_, ?_, ?_, ?_, ?_, ?_⟩
  · intro start hs
    exact (hiff start 100 0 0).mpr ⟨by omega, by omega, by omega, by omega⟩
  · intro start p c v hp h
    have := (hiff start p c v).mp h
    omega
  · intro start c v hcv h
    have := (hiff start 100 c v).mp h
    omega
  · intro start p c hp h
    have := (hiff start p c 0).mp h
    omega
  · intro start p c v hs h
    have := (hiff start p c v).mp h
    omega
  · intro start h
    have := (hiff start 101 0 0).mp h
    omega
  · intro start h
    have := (hiff start 100 1 0).mp h
    omega
  · intro start h
    have := (hiff start 50 1 0).mp h
    omega

/-- C6 witness: the valid combination (5, 100, 0, 0) is accepted. -/
theorem c6_witness :
    validate_airdrop_calculation_variables 5 100 0 0 = .ok () :=
  c6_theorem.2.1 5 (by decide)

/-- A state with the same recipients and aggregate as a state satisfying the
ledger invariant satisfies it as well. -/
theorem ledgerInv_congr (s s' : AzAirdrop) (hInv : LedgerInv s)
    (hrec : s'.recipients = s.recipients)
    (htbc : s'.to_be_collected = s.to_be_collected) : LedgerInv s' := by
  unfold LedgerInv at hInv ⊢
  rw [hrec, htbc]
  exact hInv

/-- A successful recipient_add preserves the ledger invariant. -/
theorem inv_recipient_add (env : Env) (a amt : Nat) (s : AzAirdrop)
    (rec : Recipient) (s' : AzAirdrop) (hInv : LedgerInv s)
    (h : recipient_add env a amt s = some (.ok rec, s')) : LedgerInv s' := by
  unfold recipient_add at h
  split at h
  · simp at h
  · split at h
    · simp at h
    · split at h
      · simp at h
      · dsimp only [] at h
        split at h
        · simp at h
        · split at h
          · exact Option.noConfusion h
          · rename_i hov hbal htrap
            simp only [Option.some.injEq, Prod.mk.injEq, Except.ok.injEq] at h
            obtain ⟨hrec, hs'⟩ := h
            subst hs'
            obtain ⟨hInv1, hInv2, hInv3⟩ := hInv
            refine ⟨?_, ?_, ?_⟩
            · intro k r hk
              rcases mapGet_mapInsert_cases _ _ _ _ _ hk with hkv | hold
              · subst hkv
                cases hget0 : mapGet s.recipients a with
                | some r0 =>
                  rw [hget0] at htrap
                  have hr0 := hInv1 a r0 hget0
                  simp only [Option.getD_some] at htrap ⊢
                  exact ⟨by omega, by omega⟩
                | none =>
                  rw [hget0] at htrap
                  simp only [Option.getD_none] at htrap ⊢
                  exact ⟨by omega, by omega⟩
              · exact hInv1 k r hold
            · show amt + s.to_be_collected = _
              cases hget0 : mapGet s.recipients a with
              | some r0 =>
                rw [hget0] at htrap
                simp only [Option.getD_some] at htrap ⊢
                have hpres := sumOwed_mapInsert_present s.recipients a r0
                  { r0 with total_amount := r0.total_amount + amt } hget0
                have hrle := hInv1 a r0 hget0
                unfold owed at hpres
                simp only [] at hpres
                omega
              | none =>
                rw [hget0] at htrap
                simp only [Option.getD_none] at htrap ⊢
                have hpres := sumOwed_mapInsert_absent s.recipients a
                  { total_amount := 0 + amt, collected := 0,
                    collectable_at_tge_percentage :=
                      s.default_collectable_at_tge_percentage,
                    cliff_duration := s.default_cliff_duration,
                    vesting_duration := s.default_vesting_duration } hget0
                unfold owed at hpres
                simp only [] at hpres
                omega
            · show amt + s.to_be_collected ≤ U128_MAX
              omega

/-- A successful recipient_subtract whose amount stays within the target's
owed amount preserves the ledger invariant. -/
theorem inv_recipient_subtract (env : Env) (a amt : Nat) (s : AzAirdrop)
    (rec : Recipient) (s' : AzAirdrop) (hInv : LedgerInv s)
    (hwithin : ∀ r, mapGet s.recipients a = some r →
      amt ≤ r.total_amount - r.collected)
    (h : recipient_subtract env a amt s = some (.ok rec, s')) :
    LedgerInv s' := by
  unfold recipient_subtract at h
  split at h
  · simp at h
  · split at h
    · simp at h
    · split at h
      · simp at h
      · rename_i recipient hget0
        split at h
        · simp at h
        · rename_i hgt
          dsimp only [] at h
          simp only [Option.some.injEq, Prod.mk.injEq, Except.ok.injEq] at h
          obtain ⟨hrec, hs'⟩ := h
          subst hs'
          obtain ⟨hInv1, hInv2, hInv3⟩ := hInv
          have hr0 := hInv1 a recipient hget0
          have hwa := hwithin recipient hget0
          have hole := owed_le_sumOwed s.recipients a recipient hget0
          have hpres := sumOwed_mapInsert_present s.recipients a recipient
            { recipient with total_amount := recipient.total_amount - amt }
            hget0
          unfold owed at hpres hole
          simp only [] at hpres
          refine ⟨?_, ?_, ?_⟩
          · intro k r hk
            rcases mapGet_mapInsert_cases _ _ _ _ _ hk with hkv | hold
            · subst hkv
              refine ⟨?_, ?_⟩
              · show recipient.collected ≤ recipient.total_amount - amt
                omega
              · show recipient.total_amount - amt ≤ U128_MAX
                omega
            · exact hInv1 k r hold
          · show s.to_be_collected - amt = sumOwed (mapInsert s.recipients a
              { recipient with
                total_amount := recipient.total_amount - amt })
            omega
          · show s.to_be_collected - amt ≤ U128_MAX
            omega

/-- A successful update_recipient preserves the ledger invariant: the
updated record keeps its total_amount and collected. -/
theorem inv_update_recipient (env : Env) (a : Nat) (p c v : Option Nat)
    (s : AzAirdrop) (rec : Recipient) (s' : AzAirdrop) (hInv : LedgerInv s)
    (h : update_recipient env a p c v s = some (.ok rec, s')) :
    LedgerInv s' := by
  unfold update_recipient at h
  split at h
  · simp at h
  · split at h
    · simp at h
    · split at h
      · simp at h
      · rename_i recipient hget0
        dsimp only [] at h
        split at h
        · simp at h
        · simp only [Option.some.injEq, Prod.mk.injEq, Except.ok.injEq] at h
          obtain ⟨hrec, hs'⟩ := h
          subst hs'
          obtain ⟨hInv1, hInv2, hInv3⟩ := hInv
          have hr0 := hInv1 a recipient hget0
          have hpres := sumOwed_mapInsert_present s.recipients a recipient
            { recipient with
              collectable_at_tge_percentage :=
                p.getD recipient.collectable_at_tge_percentage
              cliff_duration := c.getD recipient.cliff_duration
              vesting_duration := v.getD recipient.vesting_duration } hget0
          unfold owed at hpres
          simp only [] at hpres
          refine ⟨?_, ?_, ?_⟩
          · intro k r hk
            rcases mapGet_mapInsert_cases _ _ _ _ _ hk with hkv | hold
            · subst hkv
              refine ⟨?_, ?_⟩
              · show recipient.collected ≤ recipient.total_amount
                omega
              · show recipient.total_amount ≤ U128_MAX
                omega
            · exact hInv1 k r hold
          · show s.to_be_collected = sumOwed (mapInsert s.recipients a
              { recipient with
                collectable_at_tge_percentage :=
                  p.getD recipient.collectable_at_tge_percentage
                cliff_duration := c.getD recipient.cliff_duration
                vesting_duration := v.getD recipient.vesting_duration })
            omega
          · exact hInv3

/-- A successful collect preserves the ledger invariant: the collected
amount is bounded by the owed amount of the caller's record. -/
theorem inv_collect (env : Env) (s : AzAirdrop) (ca : Nat) (s' : AzAirdrop)
    (hInv : LedgerInv s) (h : collect env s = some (.ok ca, s')) :
    LedgerInv s' := by
  unfold collect at h
  split at h
  · simp at h
  · rename_i recipient hget0
    split at h
    · exact Option.noConfusion h
    · simp at h
    · rename_i ca0 hca
      split at h
      · simp at h
      · rename_i hca0
        split at h
        · dsimp only [] at h
          simp only [Option.some.injEq, Prod.mk.injEq, Except.ok.injEq] at h
          obtain ⟨hcav, hs'⟩ := h
          subst hs'
          subst hcav
          obtain ⟨hInv1, hInv2, hInv3⟩ := hInv
          have hr0 := hInv1 env.caller recipient hget0
          have hle := collectable_ok_le s env.caller env.now recipient ca0
            hget0 hca
          have hole := owed_le_sumOwed s.recipients env.caller recipient hget0
          have hpres := sumOwed_mapInsert_present s.recipients env.caller
            recipient
            { recipient with
              collected := min (recipient.collected + ca0) U128_MAX } hget0
          unfold owed at hpres hole
          simp only [] at hpres
          have hmax : (0 : Nat) < U128_MAX := by
            unfold U128_MAX
            norm_num
          refine ⟨?_, ?_, ?_⟩
          · intro k r hk
            rcases mapGet_mapInsert_cases _ _ _ _ _ hk with hkv | hold
            · subst hkv
              refine ⟨?_, ?_⟩
              · show min (recipient.collected + ca0) U128_MAX ≤
                  recipient.total_amount
                omega
              · show recipient.total_amount ≤ U128_MAX
                omega
            · exact hInv1 k r hold
          · show s.to_be_collected - ca0 =
              sumOwed (mapInsert s.recipients env.caller
                { recipient with
                  collected := min (recipient.collected + ca0) U128_MAX })
            omega
          · show s.to_be_collected - ca0 ≤ U128_MAX
            omega
        · simp at h

/-- The tail of update_config only touches start and the three defaults. -/
theorem update_config_tail_fields (env : Env) (p c v : Option Nat)
    (s2 : AzAirdrop) (res : Except AzAirdropError Unit) (s' : AzAirdrop)
    (h : update_config.update_config_tail env p c v s2 = some (res, s')) :
    s'.recipients = s2.recipients ∧
    s'.to_be_collected = s2.to_be_collected := by
  unfold update_config.update_config_tail at h
  dsimp only [] at h
  split at h <;>
  · simp only [Option.some.injEq, Prod.mk.injEq] at h
    obtain ⟨_, hs'⟩ := h
    subst hs'
    exact ⟨rfl, rfl⟩

/-- update_config never changes the recipients or the aggregate. -/
theorem update_config_fields (env : Env) (adm : Option Nat)
    (st : Option Nat) (p c v : Option Nat) (s : AzAirdrop)
    (res : Except AzAirdropError Unit) (s' : AzAirdrop)
    (h : update_config env adm st p c v s = some (res, s')) :
    s'.recipients = s.recipients ∧
    s'.to_be_collected = s.to_be_collected := by
  unfold update_config at h
  split at h
  · simp only [Option.some.injEq, Prod.mk.injEq] at h
    obtain ⟨_, hs'⟩ := h
    subst hs'
    exact ⟨rfl, rfl⟩
  · dsimp only [] at h
    cases adm with
    | some a0 =>
      try dsimp only [] at h
      cases st with
      | some st0 =>
        try dsimp only [] at h
        split at h
        · split at h
          · obtain ⟨h1, h2⟩ := update_config_tail_fields env p c v _ res s' h
            exact ⟨h1, h2⟩
          · simp only [Option.some.injEq, Prod.mk.injEq] at h
            obtain ⟨_, hs'⟩ := h
            subst hs'
            exact ⟨rfl, rfl⟩
        · simp only [Option.some.injEq, Prod.mk.injEq] at h
          obtain ⟨_, hs'⟩ := h
          subst hs'
          exact ⟨rfl, rfl⟩
      | none =>
        obtain ⟨h1, h2⟩ := update_config_tail_fields env p c v _ res s' h
        exact ⟨h1, h2⟩
    | none =>
      try dsimp only [] at h
      cases st with
      | some st0 =>
        try dsimp only [] at h
        split at h
        · split at h
          · obtain ⟨h1, h2⟩ := update_config_tail_fields env p c v _ res s' h
            exact ⟨h1, h2⟩
          · simp only [Option.some.injEq, Prod.mk.injEq] at h
            obtain ⟨_, hs'⟩ := h
            subst hs'
            exact ⟨rfl, rfl⟩
        · simp only [Option.some.injEq, Prod.mk.injEq] at h
          obtain ⟨_, hs'⟩ := h
          subst hs'
          exact ⟨rfl, rfl⟩
      | none =>
        obtain ⟨h1, h2⟩ := update_config_tail_fields env p c v _ res s' h
        exact ⟨h1, h2⟩

/-- acquire_token never changes contract storage. -/
theorem acquire_token_fields (env : Env) (amt fromAddr : Nat)
    (s : AzAirdrop) (res : Except AzAirdropError Unit) (s' : AzAirdrop)
    (h : acquire_token env amt fromAddr s = some (res, s')) : s' = s := by
  unfold acquire_token at h
  split at h
  · simp only [Option.some.injEq, Prod.mk.injEq] at h
    exact h.2.symm
  · split at h
    · simp only [Option.some.injEq, Prod.mk.injEq] at h
      exact h.2.symm
    · split at h <;>
      · simp only [Option.some.injEq, Prod.mk.injEq] at h
        exact h.2.symm

/-- return_spare_tokens never changes contract storage. -/
theorem return_spare_tokens_fields (env : Env) (s : AzAirdrop)
    (res : Except AzAirdropError Nat) (s' : AzAirdrop)
    (h : return_spare_tokens env s = some (res, s')) : s' = s := by
  unfold return_spare_tokens at h
  split at h
  · simp only [Option.some.injEq, Prod.mk.injEq] at h
    exact h.2.symm
  · dsimp only [] at h
    split at h
    · split at h <;>
      · simp only [Option.some.injEq, Prod.mk.injEq] at h
        exact h.2.symm
    · simp only [Option.some.injEq, Prod.mk.injEq] at h
      exact h.2.symm

/-- sub_admins_add never changes the recipients or the aggregate. -/
theorem sub_admins_add_fields (env : Env) (a : Nat) (s : AzAirdrop)
    (res : Except AzAirdropError (List Nat)) (s' : AzAirdrop)
    (h : sub_admins_add env a s = some (res, s')) :
    s'.recipients = s.recipients ∧
    s'.to_be_collected = s.to_be_collected := by
  unfold sub_admins_add at h
  split at h
  · simp only [Option.some.injEq, Prod.mk.injEq] at h
    obtain ⟨_, hs'⟩ := h
    subst hs'
    exact ⟨rfl, rfl⟩
  · split at h <;>
    · try dsimp only [] at h
      simp only [Option.some.injEq, Prod.mk.injEq] at h
      obtain ⟨_, hs'⟩ := h
      subst hs'
      exact ⟨rfl, rfl⟩

/-- sub_admins_remove never changes the recipients or the aggregate. -/
theorem sub_admins_remove_fields (env : Env) (a : Nat) (s : AzAirdrop)
    (res : Except AzAirdropError (List Nat)) (s' : AzAirdrop)
    (h : sub_admins_remove env a s = some (res, s')) :
    s'.recipients = s.recipients ∧
    s'.to_be_collected = s.to_be_collected := by
  unfold sub_admins_remove at h
  split at h
  · simp only [Option.some.injEq, Prod.mk.injEq] at h
    obtain ⟨_, hs'⟩ := h
    subst hs'
    exact ⟨rfl, rfl⟩
  · split at h
    · split at h
      · exact Option.noConfusion h
      · try dsimp only [] at h
        simp only [Option.some.injEq, Prod.mk.injEq] at h
        obtain ⟨_, hs'⟩ := h
        subst hs'
        exact ⟨rfl, rfl⟩
    · simp only [Option.some.injEq, Prod.mk.injEq] at h
      obtain ⟨_, hs'⟩ := h
      subst hs'
      exact ⟨rfl, rfl⟩

/-- A freshly constructed contract satisfies the ledger invariant. -/
theorem inv_new (caller token start p c v : Nat) (s : AzAirdrop)
    (h : new caller token start p c v = .ok s) : LedgerInv s := by
  unfold new at h
  split at h
  · exact Except.noConfusion h
  · simp only [Except.ok.injEq] at h
    subst h
    refine ⟨?_, rfl, Nat.zero_le _⟩
    intro k r hk
    simp [mapGet] at hk

/-- Every state reachable with subtractions restricted to the owed amount
satisfies the ledger invariant. -/
theorem ledgerInv_reachableRestricted (s : AzAirdrop)
    (h : ReachableRestricted s) : LedgerInv s := by
  induction h with
  | init caller token start p c v s hnew =>
    exact inv_new caller token start p c v s hnew
  | step s op env r s' hre hsub hstep ih =>
    cases op with
    | opRecipientAdd a amt =>
      simp only [step] at hstep
      split at hstep
      · exact Option.noConfusion hstep
      · rename_i val s2 heq
        simp only [Option.some.injEq, Prod.mk.injEq] at hstep
        obtain ⟨_, hs'⟩ := hstep
        subst hs'
        exact inv_recipient_add env a amt s val s2 ih heq
      · simp only [Option.some.injEq, Prod.mk.injEq] at hstep
        obtain ⟨_, hs'⟩ := hstep
        subst hs'
        exact ih
    | opRecipientSubtract a amt =>
      simp only [step] at hstep
      split at hstep
      · exact Option.noConfusion hstep
      · rename_i val s2 heq
        simp only [Option.some.injEq, Prod.mk.injEq] at hstep
        obtain ⟨_, hs'⟩ := hstep
        subst hs'
        exact inv_recipient_subtract env a amt s val s2 ih
          (hsub a amt rfl) heq
      · simp only [Option.some.injEq, Prod.mk.injEq] at hstep
        obtain ⟨_, hs'⟩ := hstep
        subst hs'
        exact ih
    | opUpdateRecipient a p c v =>
      simp only [step] at hstep
      split at hstep
      · exact Option.noConfusion hstep
      · rename_i val s2 heq
        simp only [Option.some.injEq, Prod.mk.injEq] at hstep
        obtain ⟨_, hs'⟩ := hstep
        subst hs'
        exact inv_update_recipient env a p c v s val s2 ih heq
      · simp only [Option.some.injEq, Prod.mk.injEq] at hstep
        obtain ⟨_, hs'⟩ := hstep
        subst hs'
        exact ih
    | opUpdateConfig adm st p c v =>
      simp only [step] at hstep
      split at hstep
      · exact Option.noConfusion hstep
      · rename_i val s2 heq
        simp only [Option.some.injEq, Prod.mk.injEq] at hstep
        obtain ⟨_, hs'⟩ := hstep
        subst hs'
        obtain ⟨h1, h2⟩ := update_config_fields env adm st p c v s (.ok val) s2 heq
        exact ledgerInv_congr s s2 ih h1 h2
      · simp only [Option.some.injEq, Prod.mk.injEq] at hstep
        obtain ⟨_, hs'⟩ := hstep
        subst hs'
        exact ih
    | opCollect =>
      simp only [step] at hstep
      split at hstep
      · exact Option.noConfusion hstep
      · rename_i val s2 heq
        simp only [Option.some.injEq, Prod.mk.injEq] at hstep
        obtain ⟨_, hs'⟩ := hstep
        subst hs'
        exact inv_collect env s val s2 ih heq
      · simp only [Option.some.injEq, Prod.mk.injEq] at hstep
        obtain ⟨_, hs'⟩ := hstep
        subst hs'
        exact ih
    | opAcquireToken amt fromAddr =>
      simp only [step] at hstep
      split at hstep
      · exact Option.noConfusion hstep
      · rename_i val s2 heq
        simp only [Option.some.injEq, Prod.mk.injEq] at hstep
        obtain ⟨_, hs'⟩ := hstep
        subst hs'
        rw [acquire_token_fields env amt fromAddr s (.ok val) s2 heq]
        exact ih
      · simp only [Option.some.injEq, Prod.mk.injEq] at hstep
        obtain ⟨_, hs'⟩ := hstep
        subst hs'
        exact ih
    | opReturnSpareTokens =>
      simp only [step] at hstep
      split at hstep
      · exact Option.noConfusion hstep
      · rename_i val s2 heq
        simp only [Option.some.injEq, Prod.mk.injEq] at hstep
        obtain ⟨_, hs'⟩ := hstep
        subst hs'
        rw [return_spare_tokens_fields env s (.ok val) s2 heq]
        exact ih
      · simp only [Option.some.injEq, Prod.mk.injEq] at hstep
        obtain ⟨_, hs'⟩ := hstep
        subst hs'
        exact ih
    | opSubAdminsAdd a =>
      simp only [step] at hstep
      split at hstep
      · exact Option.noConfusion hstep
      · rename_i val s2 heq
        simp only [Option.some.injEq, Prod.mk.injEq] at hstep
        obtain ⟨_, hs'⟩ := hstep
        subst hs'
        obtain ⟨h1, h2⟩ := sub_admins_add_fields env a s (.ok val) s2 heq
        exact ledgerInv_congr s s2 ih h1 h2
      · simp only [Option.some.injEq, Prod.mk.injEq] at hstep
        obtain ⟨_, hs'⟩ := hstep
        subst hs'
        exact ih
    | opSubAdminsRemove a =>
      simp only [step] at hstep
      split at hstep
      · exact Option.noConfusion hstep
      · rename_i val s2 heq
        simp only [Option.some.injEq, Prod.mk.injEq] at hstep
        obtain ⟨_, hs'⟩ := hstep
        subst hs'
        obtain ⟨h1, h2⟩ := sub_admins_remove_fields env a s (.ok val) s2 heq
        exact ledgerInv_congr s s2 ih h1 h2
      · simp only [Option.some.injEq, Prod.mk.injEq] at hstep
        obtain ⟨_, hs'⟩ := hstep
        subst hs'
        exact ih

/-- C1 amended: the aggregate identity to_be_collected equals the sum over
recipients of total_amount - collected in every state reachable when each
recipient_subtract takes at most the target's total_amount - collected.
The unamended claim fails: an unrestricted subtract saturates the aggregate
while another recipient is still owed tokens (see the counterexample). -/
theorem c1_amended_theorem (s : AzAirdrop) (h : ReachableRestricted s) :
    s.to_be_collected = sumOwed s.recipients :=
  (ledgerInv_reachableRestricted s h).2.1

/-- C1 amended witness: the identity after construction and one
recipient_add of 10. -/
theorem c1_amended_witness :
    cexS1.to_be_collected = sumOwed cexS1.recipients :=
  c1_amended_theorem cexS1
    (ReachableRestricted.step cexS0 (.opRecipientAdd 7 10) (mkEnv 1 10 10)
      (.ok ()) cexS1
      (ReachableRestricted.init 1 9 1000 50 0 100 cexS0 (by decide))
      (by intro a amt heq; exact Op.noConfusion heq)
      (by decide))

/-- C3 amended: collected never exceeds total_amount in every state
reachable when each recipient_subtract takes at most the target's
total_amount - collected. The unamended claim fails: recipient_subtract of
an amount above total_amount - collected (possible once collected is
positive after update_config moved start back into the future) drops
total_amount below collected (see the counterexample). -/
theorem c3_amended_theorem (s : AzAirdrop) (h : ReachableRestricted s) :
    ∀ k r, mapGet s.recipients k = some r →
      r.collected ≤ r.total_amount :=
  fun k r hk => ((ledgerInv_reachableRestricted s h).1 k r hk).1

/-- C3 amended witness: the record created by one recipient_add satisfies
collected at most total_amount. -/
theorem c3_amended_witness : (0 : Nat) ≤ 10 :=
  c3_amended_theorem cexS1
    (ReachableRestricted.step cexS0 (.opRecipientAdd 7 10) (mkEnv 1 10 10)
      (.ok ()) cexS1
      (ReachableRestricted.init 1 9 1000 50 0 100 cexS0 (by decide))
      (by intro a amt heq; exact Op.noConfusion heq)
      (by decide))
    7 ⟨10, 0, 50, 0, 100⟩ (by decide)

/-- With an authorized caller before start, enough escrowed balance and no
aggregate overflow, recipient_add on a fresh address creates the record with
the stored defaults and adds the amount to the aggregate. -/
theorem recipient_add_ok_spec (env : Env) (s : AzAirdrop)
    (address amount : Nat)
    (hauth : authorise_to_update_recipient env s = .ok ())
    (hns : env.now < s.start)
    (hov : amount + s.to_be_collected ≤ U128_MAX)
    (hnew : mapGet s.recipients address = none)
    (hbal : amount + s.to_be_collected ≤ env.balance) :
    recipient_add env address amount s = some (.ok
      { total_amount := amount, collected := 0,
        collectable_at_tge_percentage :=
          s.default_collectable_at_tge_percentage,
        cliff_duration := s.default_cliff_duration,
        vesting_duration := s.default_vesting_duration },
      { s with
        recipients := mapInsert s.recipients address
          { total_amount := amount, collected := 0,
            collectable_at_tge_percentage :=
              s.default_collectable_at_tge_percentage,
            cliff_duration := s.default_cliff_duration,
            vesting_duration := s.default_vesting_duration },
        to_be_collected := amount + s.to_be_collected }) := by
  have hns' : airdrop_has_not_started env s = .ok () := by
    unfold airdrop_has_not_started
    rw [if_neg (show ¬ env.now ≥ s.start by omega)]
  simp only [recipient_add, hauth, hns', hnew, Option.getD_none]
  rw [if_neg (show ¬ amount + s.to_be_collected > U128_MAX by omega),
    if_neg (show ¬ amount + s.to_be_collected > env.balance by omega),
    if_neg (show ¬ (0 : Nat) + amount > U128_MAX by omega)]
  simp [Nat.zero_add]

/-- With an authorized caller before start and no aggregate overflow, a
too-small escrowed balance makes recipient_add fail with the insufficient
balance error and the untouched state. -/
theorem recipient_add_insufficient (env : Env) (s : AzAirdrop)
    (address amount : Nat)
    (hauth : authorise_to_update_recipient env s = .ok ())
    (hns : env.now < s.start)
    (hov : amount + s.to_be_collected ≤ U128_MAX)
    (hbal : env.balance < amount + s.to_be_collected) :
    recipient_add env address amount s =
      some (.error (.UnprocessableEntity "Insufficient balance"), s) := by
  have hns' : airdrop_has_not_started env s = .ok () := by
    unfold airdrop_has_not_started
    rw [if_neg (show ¬ env.now ≥ s.start by omega)]
  simp only [recipient_add, hauth, hns']
  rw [if_neg (show ¬ amount + s.to_be_collected > U128_MAX by omega),
    if_pos (show amount + s.to_be_collected > env.balance by omega)]

/-- C8: when the caller is authorized, the window has not started and the
new aggregate does not overflow, recipient_add on a previously unseen
address succeeds if the escrowed balance covers the new aggregate (creating
the record from the defaults with collected 0, total_amount = amount, and
raising to_be_collected by amount), and fails with
UnprocessableEntity Insufficient balance and an unchanged state if the
balance is smaller. -/
theorem c8_theorem (env : Env) (s : AzAirdrop) (address amount : Nat)
    (hauth : authorise_to_update_recipient env s = .ok ())
    (hns : env.now < s.start)
    (hov : amount + s.to_be_collected ≤ U128_MAX)
    (hnew : mapGet s.recipients address = none) :
    (amount + s.to_be_collected ≤ env.balance →
      recipient_add env address amount s = some (.ok
        { total_amount := amount, collected := 0,
          collectable_at_tge_percentage :=
            s.default_collectable_at_tge_percentage,
          cliff_duration := s.default_cliff_duration,
          vesting_duration := s.default_vesting_duration },
        { s with
          recipients := mapInsert s.recipients address
            { total_amount := amount, collected := 0,
              collectable_at_tge_percentage :=
                s.default_collectable_at_tge_percentage,
              cliff_duration := s.default_cliff_duration,
              vesting_duration := s.default_vesting_duration },
          to_be_collected := amount + s.to_be_collected })) ∧
    (env.balance < amount + s.to_be_collected →
      recipient_add env address amount s =
        some (.error (.UnprocessableEntity "Insufficient balance"), s)) :=
  ⟨fun hbal => recipient_add_ok_spec env s address amount hauth hns hov
      hnew hbal,
   fun hbal => recipient_add_insufficient env s address amount hauth hns
      hov hbal⟩

/-- C8 witness: adding 10 for address 7 on the fresh contract cexS0 with
balance 10 yields cexS1, and with balance 9 the insufficient balance
error. -/
theorem c8_witness :
    recipient_add (mkEnv 1 10 10) 7 10 cexS0 = some (.ok
      (⟨10, 0, 50, 0, 100⟩ : Recipient),
      { cexS0 with
        recipients :=
          mapInsert cexS0.recipients 7 (⟨10, 0, 50, 0, 100⟩ : Recipient),
        to_be_collected := 10 + cexS0.to_be_collected }) ∧
    recipient_add (mkEnv 1 10 9) 7 10 cexS0 =
      some (.error (.UnprocessableEntity "Insufficient balance"), cexS0) :=
  ⟨(c8_theorem (mkEnv 1 10 10) cexS0 7 10 (by decide) (by decide)
      (by decide) (by decide)).1 (by decide),
   (c8_theorem (mkEnv 1 10 9) cexS0 7 10 (by decide) (by decide)
      (by decide) (by decide)).2 (by decide)⟩

/-- C9 counterexample: collect is not characterized by existence plus a
nonzero collectable amount alone: on c9S recipient 7 exists with
collectable 5 at time 0, yet collect fails when the external token
transfer fails. -/
theorem c9_counterexample :
    mapGet c9S.recipients c9Env.caller = some ⟨5, 0, 100, 0, 0⟩ ∧
    collectable_amount c9S c9Env.caller c9Env.now = some (.ok 5) ∧
    collect c9Env c9S =
      some (.error (.InkEnvError "transfer failed"), c9S) := by
  refine ⟨by decide, by decide, by decide⟩

/-- C9 amended: for a caller with an existing record and zero collectable
amount, collect fails with UnprocessableEntity Amount is zero and an
unchanged state; and collect succeeds with value v exactly when the
caller's record exists, the collectable amount is the nonzero v, and the
external token transfer succeeds. -/
theorem c9_theorem (s : AzAirdrop) (env : Env) (v : Nat) :
    (∀ r, mapGet s.recipients env.caller = some r →
      collectable_amount s env.caller env.now = some (.ok 0) →
      collect env s =
        some (.error (.UnprocessableEntity "Amount is zero"), s)) ∧
    ((∃ s', collect env s = some (.ok v, s')) ↔
      ((mapGet s.recipients env.caller).isSome ∧
       collectable_amount s env.caller env.now = some (.ok v) ∧ v ≠ 0 ∧
       env.transferOk = true)) := by
  cases hget : mapGet s.recipients env.caller with
  | none =>
    have hc : collect env s = some (.error (.NotFound "Recipient"), s) := by
      unfold collect
      rw [hget]
    constructor
    · intro r hr
      exact Option.noConfusion hr
    · rw [hc]
      constructor
      · rintro ⟨s', hs'⟩
        simp at hs'
      · rintro ⟨hsome, -⟩
        simp at hsome
  | some r0 =>
    cases hca : collectable_amount s env.caller env.now with
    | none =>
      have hc : collect env s = none := by
        unfold collect
        rw [hget, hca]
      constructor
      · intro r hr h0
        exact Option.noConfusion h0
      · rw [hc]
        constructor
        · rintro ⟨s', hs'⟩
          exact Option.noConfusion hs'
        · rintro ⟨-, h0, -⟩
          exact Option.noConfusion h0
    | some res =>
      cases res with
      | error e =>
        have hc : collect env s = some (.error e, s) := by
          unfold collect
          rw [hget, hca]
        constructor
        · intro r hr h0
          simp at h0
        · rw [hc]
          constructor
          · rintro ⟨s', hs'⟩
            simp at hs'
          · rintro ⟨-, h0, -⟩
            simp at h0
      | ok ca =>
        by_cases hca0 : ca = 0
        · subst hca0
          have hc : collect env s =
              some (.error (.UnprocessableEntity "Amount is zero"), s) := by
            unfold collect
            rw [hget, hca]
            simp
          constructor
          · intro r hr h0
            exact hc
          · rw [hc]
            constructor
            · rintro ⟨s', hs'⟩
              simp at hs'
            · rintro ⟨-, h0, hv, -⟩
              simp only [Option.some.injEq, Except.ok.injEq] at h0
              omega
        · cases htr : env.transferOk with
          | false =>
            have hc : collect env s =
                some (.error (.InkEnvError "transfer failed"), s) := by
              unfold collect
              rw [hget, hca]
              simp [hca0, htr]
            constructor
            · intro r hr h0
              simp only [Option.some.injEq, Except.ok.injEq] at h0
              omega
            · rw [hc]
              constructor
              · rintro ⟨s', hs'⟩
                simp at hs'
              · rintro ⟨-, -, -, htr'⟩
                exact Bool.noConfusion htr'
          | true =>
            have hc : collect env s = some (.ok ca,
                { s with
                  recipients := mapInsert s.recipients env.caller
                    { r0 with
                      collected := min (r0.collected + ca) U128_MAX },
                  to_be_collected := s.to_be_collected - ca }) := by
              unfold collect
              rw [hget, hca]
              simp [hca0, htr]
            constructor
            · intro r hr h0
              simp only [Option.some.injEq, Except.ok.injEq] at h0
              omega
            · rw [hc]
              constructor
              · rintro ⟨s', hs'⟩
                simp only [Option.some.injEq, Prod.mk.injEq,
                  Except.ok.injEq] at hs'
                obtain ⟨hcv, -⟩ := hs'
                subst hcv
                exact ⟨by simp, rfl, hca0, rfl⟩
              · rintro ⟨-, h0, -, -⟩
                simp only [Option.some.injEq, Except.ok.injEq] at h0
                subst h0
                exact ⟨_, rfl⟩

/-- C9 witness: on a state like c9S but with a successful transfer, the
success characterization applied at value 5. -/
theorem c9_witness :
    (∃ s', collect (mkEnv 7 0 5) c9S = some (.ok 5, s')) ↔
      ((mapGet c9S.recipients 7).isSome ∧
       collectable_amount c9S 7 0 = some (.ok 5) ∧ (5 : Nat) ≠ 0 ∧
       (mkEnv 7 0 5).transferOk = true) :=
  (c9_theorem c9S (mkEnv 7 0 5) 5).2

/-- C10: for an address with no stored record, show, collectable_amount at
every timestamp and collect fail NotFound Recipient; recipient_subtract and
update_recipient fail NotFound Recipient once their caller and phase checks
pass; recipient_add with a covered balance creates the record from the
stored defaults instead of failing. -/
theorem c10_theorem (s : AzAirdrop) (env : Env) (address : Nat)
    (hnone : mapGet s.recipients address = none) :
    show_recipient s address = .error (.NotFound "Recipient") ∧
    (∀ t, collectable_amount s address t =
      some (.error (.NotFound "Recipient"))) ∧
    (env.caller = address →
      collect env s = some (.error (.NotFound "Recipient"), s)) ∧
    (∀ amt, authorise_to_update_recipient env s = .ok () →
      env.now < s.start →
      recipient_subtract env address amt s =
        some (.error (.NotFound "Recipient"), s)) ∧
    (∀ p c v, authorise_to_update_recipient env s = .ok () →
      env.now < s.start →
      update_recipient env address p c v s =
        some (.error (.NotFound "Recipient"), s)) ∧
    (∀ amt, authorise_to_update_recipient env s = .ok () →
      env.now < s.start → amt + s.to_be_collected ≤ U128_MAX →
      amt + s.to_be_collected ≤ env.balance →
      recipient_add env address amt s = some (.ok
        { total_amount := amt, collected := 0,
          collectable_at_tge_percentage :=
            s.default_collectable_at_tge_percentage,
          cliff_duration := s.default_cliff_duration,
          vesting_duration := s.default_vesting_duration },
        { s with
          recipients := mapInsert s.recipients address
            { total_amount := amt, collected := 0,
              collectable_at_tge_percentage :=
                s.default_collectable_at_tge_percentage,
              cliff_duration := s.default_cliff_duration,
              vesting_duration := s.default_vesting_duration },
          to_be_collected := amt + s.to_be_collected })) := by
  refine ⟨?_, ?_, ?_, ?_, ?_, ?_⟩
  · unfold show_recipient
    rw [hnone]
  · intro t
    exact collectable_amount_of_get_none s address t hnone
  · intro hcall
    unfold collect
    rw [hcall, hnone]
  · intro amt hauth hns
    have hns' : airdrop_has_not_started env s = .ok () := by
      unfold airdrop_has_not_started
      rw [if_neg (show ¬ env.now ≥ s.start by omega)]
    simp only [recipient_subtract, hauth, hns', hnone]
  · intro p c v hauth hns
    have hns' : airdrop_has_not_started env s = .ok () := by
      unfold airdrop_has_not_started
      rw [if_neg (show ¬ env.now ≥ s.start by omega)]
    simp only [update_recipient, hauth, hns', hnone]
  · intro amt hauth hns hov hbal
    exact recipient_add_ok_spec env s address amt hauth hns hov hnone hbal

/-- C10 witness: on the fresh contract cexS0 the missing address 7 yields
NotFound from the collectable_amount query at time 5. -/
theorem c10_witness :
    collectable_amount cexS0 7 5 =
      some (.error (.NotFound "Recipient")) :=
  (c10_theorem cexS0 (mkEnv 1 10 10) 7 (by decide)).2.1 5
